import Mathlib

/-!
Verification of the flux reconciliation core (git mirror state machine,
sync-marker providers, working-checkout transaction protocol).

The Go source is shallowly embedded: every external `git` invocation is a
one-shot call whose success or failure is an input to the model (an
`Option GitError`, `none` meaning success), and the repository-local side
effects of those calls (tags moved, notes written, revisions created) are
tracked in explicit state records threaded through the functions.
-/

namespace Flux

/-- Structured failures, following the error values and wrapping in the
source (`ErrNoChanges`, `ErrNoConfig`, `ErrNotCloned`, `ErrClonedOnly`,
`NotReadyError`, `PushError`, `errors.Wrap`, raw tool diagnostics). -/
inductive GitError where
  | noChanges
  | noConfig
  | notCloned
  | clonedOnly
  | notReady (underlying : GitError)
  | pushErr (url : String) (underlying : GitError)
  | cmdFailed (msg : String)
  | wrap (msg : String) (underlying : GitError)
deriving DecidableEq

/-- Modelled from the spec: the `Remote` struct is not among the source
files (only its uses `origin.URL` and `origin.StateMode` are); the spec
gives it as URL, branch reference and state-mode tag. -/
structure Remote where
  URL : String
  Branch : String
  StateMode : String
deriving DecidableEq

/-- State mode constant from the `entities` package: marker kept as a git tag. -/
def GitTagStateMode : String := "GitTag"

/-- State mode constant from the `entities` package: marker kept in a native resource. -/
def NativeStateMode : String := "Native"

/-- Readiness of the mirror, `GitRepoStatus` in the source. -/
inductive GitRepoStatus where
  | RepoNoConfig
  | RepoNew
  | RepoCloned
  | RepoReady
deriving DecidableEq

/-- Position of a status along the expected order of progress
(`NoConfig`, then `New`, `Cloned`, `Ready`). -/
def GitRepoStatus.rank : GitRepoStatus → Nat
  | .RepoNoConfig => 0
  | .RepoNew => 1
  | .RepoCloned => 2
  | .RepoReady => 3

/-- A buffered Go channel of unit values, described by its capacity and
the number of queued (pending) items. `make(chan struct, n)` gives
capacity `n` and zero pending. -/
structure Chan where
  capacity : Nat
  pending : Nat
deriving DecidableEq

/-- A send inside `select` with a `default` branch: enqueue when there is
room, otherwise drop the value; never block. -/
def Chan.trySend (c : Chan) : Chan :=
  if c.pending < c.capacity then { c with pending := c.pending + 1 } else c

/-- A receive inside `select` with a `default` branch: dequeue one item
when available. Returns the channel and whether an item was consumed. -/
def Chan.tryRecv (c : Chan) : Chan × Bool :=
  if c.pending = 0 then (c, false) else ({ c with pending := c.pending - 1 }, true)

/-- The mirror (`Repo` in the source): origin remote, intervals, readonly
flag, and the lock-guarded mutable state (status, last error, directory,
state mode) plus the two capacity-one signal channels. -/
structure Repo where
  origin : Remote
  interval : Nat
  timeout : Nat
  readonly : Bool
  status : GitRepoStatus
  err : Option GitError
  dir : String
  stateMode : String
  notify : Chan
  C : Chan
deriving DecidableEq

/-- Configuration functions accepted by `NewRepo` (the source's `Option`
interface with its three implementations). -/
inductive RepoOption where
  | pollInterval (d : Nat)
  | timeoutOpt (d : Nat)
  | repoIsReadOnly (b : Bool)
deriving DecidableEq

/-- The `apply` method of each option implementation. -/
def RepoOption.apply : RepoOption → Repo → Repo
  | .pollInterval d, r => { r with interval := d }
  | .timeoutOpt d, r => { r with timeout := d }
  | .repoIsReadOnly b, r => { r with readonly := b }

/-- Default poll interval (5 minutes, in nanoseconds). -/
def defaultInterval : Nat := 5 * 60 * 1000000000

/-- Default git operation timeout (20 seconds, in nanoseconds). -/
def defaultTimeout : Nat := 20 * 1000000000

/-- Constructor of the mirror. The status starts at `RepoNew`, or
`RepoNoConfig` when the origin URL is empty; the temporary directory is a
parameter (the source calls `getTempDirectory`); both signal channels are
created with capacity one; finally the options are applied in order. -/
def NewRepo (origin : Remote) (dir : String) (opts : List RepoOption) : Repo :=
  let status := if origin.URL = "" then GitRepoStatus.RepoNoConfig else GitRepoStatus.RepoNew
  let r : Repo :=
    { dir := dir
      origin := origin
      status := status
      interval := defaultInterval
      timeout := defaultTimeout
      readonly := false
      err := some GitError.notCloned
      stateMode := origin.StateMode
      notify := { capacity := 1, pending := 0 }
      C := { capacity := 1, pending := 0 } }
  opts.foldl (fun r o => o.apply r) r

/-- Clean removes the mirrored directory, empties `dir` and resets the
status to `RepoNew`; the recorded error is not touched. -/
def Repo.Clean (r : Repo) : Repo :=
  { r with dir := "", status := GitRepoStatus.RepoNew }

/-- Record a status below ready together with its blocking error. -/
def Repo.setUnready (r : Repo) (s : GitRepoStatus) (e : Option GitError) : Repo :=
  { r with status := s, err := e }

/-- Record the ready status and clear the error. -/
def Repo.setReady (r : Repo) : Repo :=
  { r with status := GitRepoStatus.RepoReady, err := none }

/-- Notify requests a fetch as soon as possible: a non-blocking send on
the capacity-one notify channel (drop when a notification is pending). -/
def Repo.Notify (r : Repo) : Repo :=
  { r with notify := r.notify.trySend }

/-- Publish on the capacity-one refreshed channel (non-blocking send). -/
def Repo.refreshed (r : Repo) : Repo :=
  { r with C := r.C.trySend }

/-- Outcomes of the external git invocations one `step` may make:
the mirror clone, the follow-up fetch, and the write-access probe.
`none` means the invocation succeeded. -/
structure GitOutcomes where
  mirrorClone : Option GitError
  fetchAfterClone : Option GitError
  checkPush : Option GitError
deriving DecidableEq

/-- The observable result of one transition step: the updated repo, the
progress flag it returns, and whether the reversible write-access probe
(`checkPush`) was invoked. -/
structure StepResult where
  repo : Repo
  progress : Bool
  probed : Bool
deriving DecidableEq

/-- One attempt to advance the state machine (`Repo.step`):
`RepoNoConfig` stays with no progress; `RepoNew` mirror-clones then
fetches, moving to `RepoCloned` on success and recording the error on
failure; `RepoCloned` runs the write probe when the repo is not readonly
or the state mode is the git-tag mode, then becomes ready and fires the
refreshed signal; `RepoReady` stays with no progress. -/
def Repo.step (r : Repo) (g : GitOutcomes) : StepResult :=
  match r.status with
  | .RepoNoConfig => { repo := r, progress := false, probed := false }
  | .RepoNew =>
    match g.mirrorClone with
    | some e => { repo := r.setUnready .RepoNew (some e), progress := false, probed := false }
    | none =>
      match g.fetchAfterClone with
      | some e => { repo := r.setUnready .RepoNew (some e), progress := false, probed := false }
      | none => { repo := r.setUnready .RepoCloned (some .clonedOnly), progress := true, probed := false }
  | .RepoCloned =>
    if r.readonly = false ∨ r.stateMode = GitTagStateMode then
      match g.checkPush with
      | some e => { repo := r.setUnready .RepoCloned (some e), progress := false, probed := true }
      | none => { repo := r.setReady.refreshed, progress := true, probed := true }
    else
      { repo := r.setReady.refreshed, progress := true, probed := false }
  | .RepoReady => { repo := r, progress := false, probed := false }

/-- The transitions a repo status can undergo: either a call of `step`
(with some outcomes of the external invocations), or the demotion in
`Start` that records `RepoNew` with the refresh loop failure after the
repo had reached ready. -/
inductive StatusStep : GitRepoStatus → GitRepoStatus → Prop where
  | ofStep (r : Repo) (g : GitOutcomes) : StatusStep r.status (r.step g).repo.status
  | demote (r : Repo) (e : GitError) (h : r.status = .RepoReady) :
      StatusStep r.status (r.setUnready .RepoNew (some e)).status

/-! Sync-marker providers. -/

/-- A sync-marker action (`fluxsync.SyncMarkerAction`): target revision,
message and optional signing key. -/
structure SyncMarkerAction where
  SigningKey : String
  Revision : String
  Message : String
deriving DecidableEq

/-- The tag refs of the provider's working directory and of the upstream
repository: the state the tag-backed provider's git invocations act on. -/
structure TagStore where
  localTags : List (String × String)
  remoteTags : List (String × String)
deriving DecidableEq

/-- Look a tag up in an association list of tag names to revisions. -/
def assocGet : List (String × String) → String → Option String
  | [], _ => none
  | (k, v) :: t, k2 => if k = k2 then some v else assocGet t k2

/-- Set a tag in an association list of tag names to revisions
(`git tag --force` semantics: overwrite or create). -/
def assocSet : List (String × String) → String → String → List (String × String)
  | [], k, v => [(k, v)]
  | (k1, v1) :: t, k, v => if k1 = k then (k, v) :: t else (k1, v1) :: assocSet t k v

/-- The tag-backed sync provider (`GitTagSyncProvider`). -/
structure GitTagSyncProvider where
  workingDir : String
  syncTag : String
  upstreamURL : String
  signingKey : String
  userName : String
  userEmail : String
deriving DecidableEq

/-- Outcomes of the two external git invocations of the tag-variant
`UpdateMarker`: the local force-move of the tag, and the force-push of
the tag to the upstream. `none` means success. -/
structure TagPushOutcome where
  tagMove : Option GitError
  tagPush : Option GitError
deriving DecidableEq

/-- GetRevision of the tag-backed provider: `refRevision` on the sync tag
in the provider's working directory (`git rev-list --max-count 1`), which
fails when the tag does not exist locally. -/
def GitTagSyncProvider.GetRevision (p : GitTagSyncProvider) (st : TagStore) :
    Except GitError String :=
  match assocGet st.localTags p.syncTag with
  | some rev => Except.ok rev
  | none => Except.error (GitError.cmdFailed "unknown revision")

/-- UpdateMarker of the tag-backed provider: default the signing key to
the provider's key when absent, force-move the annotated local tag to the
action's revision, then force-push the tag to the upstream URL. Either
invocation failing aborts with a wrapped error; the local move is not
undone when the push fails. -/
def GitTagSyncProvider.UpdateMarker (p : GitTagSyncProvider) (a : SyncMarkerAction)
    (st : TagStore) (o : TagPushOutcome) : TagStore × Option GitError :=
  let _a := if a.SigningKey = "" then { a with SigningKey := p.signingKey } else a
  match o.tagMove with
  | some e => (st, some (GitError.wrap ("moving tag " ++ p.syncTag) e))
  | none =>
    let st1 : TagStore := { st with localTags := assocSet st.localTags p.syncTag a.Revision }
    match o.tagPush with
    | some e => (st1, some (GitError.wrap "pushing tag to origin" e))
    | none =>
      ({ st1 with remoteTags := assocSet st1.remoteTags p.syncTag a.Revision }, none)

/-- The in-memory stand-in for the externally-owned resource holding the
marker (`NativeShim`): a revision and a message. -/
structure NativeShim where
  Revision : String
  Message : String
deriving DecidableEq

/-- The zero value of the global shim: the state before any write. -/
def initialNativeShim : NativeShim :=
  { Revision := "", Message := "" }

/-- The resource-backed sync provider (`NativeSyncProvider`). -/
structure NativeSyncProvider where
  revision : String
deriving DecidableEq

/-- GetRevision of the resource-backed provider: return the shim's
revision field with no error. -/
def NativeSyncProvider.GetRevision (_p : NativeSyncProvider) (shim : NativeShim) :
    Except GitError String :=
  Except.ok shim.Revision

/-- UpdateMarker of the resource-backed provider: overwrite the shim's
revision and message; never fails. -/
def NativeSyncProvider.UpdateMarker (_p : NativeSyncProvider) (a : SyncMarkerAction)
    (_shim : NativeShim) : NativeShim × Option GitError :=
  ({ Revision := a.Revision, Message := a.Message }, none)

/-- DeleteMarker of the resource-backed provider: reset the shim to its
zero value. -/
def NativeSyncProvider.DeleteMarker (_p : NativeSyncProvider) (_shim : NativeShim) :
    NativeShim × Option GitError :=
  (initialNativeShim, none)

/-! Note serialization. The source marshals the note payload with Go's
`encoding/json` before `git notes add`, and decodes the stored blob in
`getNote`. Modelled from the spec: the payload type itself is supplied by
the caller and is not among the source files; the spec describes a note
as reconciliation metadata, modelled here as a record of two string
fields, serialized exactly as Go's `json.Marshal` serializes such a
struct (declaration-order fields, HTML-escaping encoder). -/

/-- The character with code 123, an opening curly brace. -/
def lbrace : Char := Char.ofNat 123

/-- The character with code 125, a closing curly brace. -/
def rbrace : Char := Char.ofNat 125

/-- The character with code 34, a double quote. -/
def dq : Char := Char.ofNat 34

/-- The character with code 92, a backslash. -/
def bsl : Char := Char.ofNat 92

/-- Lowercase hexadecimal digit for a value below 16. -/
def hexDigit (n : Nat) : Char :=
  match n with
  | 0 => '0' | 1 => '1' | 2 => '2' | 3 => '3'
  | 4 => '4' | 5 => '5' | 6 => '6' | 7 => '7'
  | 8 => '8' | 9 => '9' | 10 => 'a' | 11 => 'b'
  | 12 => 'c' | 13 => 'd' | 14 => 'e' | _ => 'f'

/-- Value of a hexadecimal digit character, lowercase or uppercase. -/
def hexVal (c : Char) : Option Nat :=
  if c = '0' then some 0 else if c = '1' then some 1
  else if c = '2' then some 2 else if c = '3' then some 3
  else if c = '4' then some 4 else if c = '5' then some 5
  else if c = '6' then some 6 else if c = '7' then some 7
  else if c = '8' then some 8 else if c = '9' then some 9
  else if c = 'a' ∨ c = 'A' then some 10 else if c = 'b' ∨ c = 'B' then some 11
  else if c = 'c' ∨ c = 'C' then some 12 else if c = 'd' ∨ c = 'D' then some 13
  else if c = 'e' ∨ c = 'E' then some 14 else if c = 'f' ∨ c = 'F' then some 15
  else none

/-- Escape one character of a JSON string the way Go's default
(HTML-escaping) encoder does: quote and backslash get a backslash escape,
newline, carriage return and tab get their short escapes, other control
characters become a four-digit hex escape, the HTML-sensitive characters
and the two line separators become hex escapes, everything else is kept. -/
def escChar (c : Char) : List Char :=
  if c = dq then [bsl, dq]
  else if c = bsl then [bsl, bsl]
  else if c = '\n' then [bsl, 'n']
  else if c = '\r' then [bsl, 'r']
  else if c = '\t' then [bsl, 't']
  else if c.toNat < 32 then [bsl, 'u', '0', '0', hexDigit (c.toNat / 16), hexDigit (c.toNat % 16)]
  else if c = '<' then [bsl, 'u', '0', '0', '3', 'c']
  else if c = '>' then [bsl, 'u', '0', '0', '3', 'e']
  else if c = '&' then [bsl, 'u', '0', '0', '2', '6']
  else if c.toNat = 8232 then [bsl, 'u', '2', '0', '2', '8']
  else if c.toNat = 8233 then [bsl, 'u', '2', '0', '2', '9']
  else [c]

/-- Escape a JSON string body character by character. -/
def escape : List Char → List Char
  | [] => []
  | c :: cs => escChar c ++ escape cs

/-- Resolve a single-character escape of a JSON string, as the decoder
does for a backslash followed by this character. -/
def unqEsc (c : Char) : Option Char :=
  if c = dq then some dq
  else if c = bsl then some bsl
  else if c = '/' then some '/'
  else if c = 'n' then some '\n'
  else if c = 'r' then some '\r'
  else if c = 't' then some '\t'
  else if c = 'b' then some (Char.ofNat 8)
  else if c = 'f' then some (Char.ofNat 12)
  else none

/-- Parse the body of a JSON string up to and including its closing
quote, resolving escapes; return the decoded characters and the rest of
the input. -/
def parseStrBody : List Char → Option (List Char × List Char)
  | [] => none
  | c :: cs =>
    if c = dq then some ([], cs)
    else if c = bsl then
      match cs with
      | [] => none
      | e :: rest =>
        if e = 'u' then
          match rest with
          | h1 :: h2 :: h3 :: h4 :: rest2 =>
            match hexVal h1, hexVal h2, hexVal h3, hexVal h4 with
            | some a, some b, some c3, some d =>
              (parseStrBody rest2).map
                (fun p => (Char.ofNat (((a * 16 + b) * 16 + c3) * 16 + d) :: p.1, p.2))
            | _, _, _, _ => none
          | _ => none
        else
          match unqEsc e with
          | some ch => (parseStrBody rest).map (fun p => (ch :: p.1, p.2))
          | none => none
    else
      (parseStrBody cs).map (fun p => (c :: p.1, p.2))

/-- Modelled from the spec: the note payload attached to a commit —
reconciliation metadata serialized to JSON; a record of two string
fields standing for an arbitrary string-field struct marshalled by the
caller. -/
structure NotePayload where
  Kind : String
  Body : String
deriving DecidableEq

/-- Serialize a note payload the way Go's `json.Marshal` serializes the
corresponding two-string-field struct: an object with the fields in
declaration order and escaped string values. -/
def jsonMarshal (p : NotePayload) : List Char :=
  [lbrace, dq] ++ "Kind".data ++ [dq, ':', dq] ++ escape p.Kind.data ++
  [dq, ',', dq] ++ "Body".data ++ [dq, ':', dq] ++ escape p.Body.data ++
  [dq, rbrace]

/-- Consume an exact literal from the front of the input. -/
def dropLit : List Char → List Char → Option (List Char)
  | [], s => some s
  | _ :: _, [] => none
  | l :: ls, c :: cs => if c = l then dropLit ls cs else none

/-- Decode a serialized note payload: the behaviour of Go's JSON decoder
on the canonical output `jsonMarshal` produces for this struct type. -/
def jsonUnmarshal (s : List Char) : Option NotePayload := do
  let s1 ← dropLit ([lbrace, dq] ++ "Kind".data ++ [dq, ':', dq]) s
  let p1 ← parseStrBody s1
  let s2 ← dropLit ([',', dq] ++ "Body".data ++ [dq, ':', dq]) p1.2
  let p2 ← parseStrBody s2
  let s3 ← dropLit [rbrace] p2.2
  if s3 = [] then some { Kind := String.mk p1.1, Body := String.mk p2.1 } else none

/-! Working checkout and its transaction protocol. -/

/-- Configuration of a working clone (`Config` in the source). -/
structure Config where
  Branch : String
  Paths : List String
  ReadOnly : Bool
  SyncMarkerName : String
  NotesRef : String
  UserName : String
  UserEmail : String
  SigningKey : String
  SetAuthor : Bool
  SkipMessage : String
deriving DecidableEq

/-- A one-transaction working clone (`Checkout` in the source):
directory, config, upstream remote and the resolved long-form notes ref. -/
structure Checkout where
  dir : String
  config : Config
  upstream : Remote
  realNotesRef : String
deriving DecidableEq

/-- A commit request (`CommitAction` in the source). -/
structure CommitAction where
  Author : String
  Message : String
  SigningKey : String
deriving DecidableEq

/-- A commit as recorded in the clone: the author, the full message
handed to `git commit`, and the signing key actually used. -/
structure CommitRec where
  author : String
  message : String
  signingKey : String
deriving DecidableEq

/-- Look a revision up in an association list of revisions to blobs. -/
def notesGet : List (Nat × List Char) → Nat → Option (List Char)
  | [], _ => none
  | (k, v) :: t, k2 => if k = k2 then some v else notesGet t k2

/-- The git state of the working clone the checkout's invocations act on:
whether the diff over the configured sub-paths reports changes, the
current head revision, the recorded commits, the serialized note blobs
under the resolved notes ref, and whether that notes ref exists locally. -/
structure WorkState where
  hasChanges : Bool
  head : Nat
  commits : List (Nat × CommitRec)
  notes : List (Nat × List Char)
  notesRefExists : Bool
deriving DecidableEq

/-- Outcomes of the fallible external invocations `CommitAndPush`
makes whose success is decided outside the local state: the commit
command, the push command, and the error (if any) `refExists` reports
when the ref is absent for a reason other than being unknown. -/
structure CmdOutcomes where
  commitCmd : Option GitError
  pushCmd : Option GitError
  refExistsErr : Option GitError
deriving DecidableEq

/-- The `check` primitive: `git diff --quiet` over the configured
sub-paths, true when there are local changes. -/
def check (st : WorkState) : Bool :=
  st.hasChanges

/-- The `refExists` primitive on the resolved notes ref: `(true, nil)`
when the ref exists, `(false, nil)` when git reports an unknown revision,
and `(false, err)` on any other failure. -/
def refExists (st : WorkState) (o : CmdOutcomes) : Bool × Option GitError :=
  if st.notesRefExists then (true, none)
  else (false, o.refExistsErr)

/-- The observable result of `CommitAndPush`: the final local state, the
returned error (`none` on success), and the refs handed to `git push`
when the push step was reached. -/
structure CPOut where
  state : WorkState
  result : Option GitError
  pushedRefs : Option (List String)
deriving DecidableEq

/-- The `commit` primitive: `git commit --no-verify --all` with the
message and resolved author and signing key; on success it creates a
fresh head revision and leaves no diff behind. -/
def commitStep (st : WorkState) (rec : CommitRec) (o : CmdOutcomes) :
    Option WorkState :=
  match o.commitCmd with
  | some _ => none
  | none =>
    some { st with
            head := st.head + 1
            hasChanges := false
            commits := (st.head + 1, rec) :: st.commits }

/-- The `addNote` primitive: marshal the payload and run
`git notes add --message`, which fails when the revision already carries
a note; on success the notes ref exists afterwards. -/
def addNote (st : WorkState) (rev : Nat) (payload : NotePayload) :
    WorkState × Option GitError :=
  match notesGet st.notes rev with
  | some _ => (st, some (GitError.cmdFailed "Cannot add notes. Found existing notes"))
  | none =>
    ({ st with notes := (rev, jsonMarshal payload) :: st.notes, notesRefExists := true },
      none)

/-- The final phase of `CommitAndPush`: collect the refs to push — the
configured branch, plus the resolved notes ref when `refExists` reports
it — and push them, wrapping a push failure in the push error carrying
the upstream URL. A `refExists` failure (other than the ref being
unknown) aborts before the push. -/
def pushPhase (c : Checkout) (st : WorkState) (o : CmdOutcomes) : CPOut :=
  match refExists st o with
  | (true, _) =>
    let refs := [c.config.Branch, c.realNotesRef]
    match o.pushCmd with
    | some e => { state := st, result := some (GitError.pushErr c.upstream.URL e), pushedRefs := some refs }
    | none => { state := st, result := none, pushedRefs := some refs }
  | (false, some e) => { state := st, result := some e, pushedRefs := none }
  | (false, none) =>
    let refs := [c.config.Branch]
    match o.pushCmd with
    | some e => { state := st, result := some (GitError.pushErr c.upstream.URL e), pushedRefs := some refs }
    | none => { state := st, result := none, pushedRefs := some refs }

/-- CommitAndPush: fail with the no-changes error when the diff over the
configured sub-paths is empty; append the skip-message suffix and default
the signing key; commit; when a note payload is supplied, attach it to
the new head revision under the notes ref; finally push the branch and,
when it exists locally, the notes ref. -/
def Checkout.CommitAndPush (c : Checkout) (a : CommitAction)
    (note : Option NotePayload) (st : WorkState) (o : CmdOutcomes) : CPOut :=
  if check st = false then
    { state := st, result := some GitError.noChanges, pushedRefs := none }
  else
    let message := a.Message ++ c.config.SkipMessage
    let key := if a.SigningKey = "" then c.config.SigningKey else a.SigningKey
    match commitStep st { author := a.Author, message := message, signingKey := key } o with
    | none => { state := st, result := some (GitError.wrap "git commit" (o.commitCmd.getD (GitError.cmdFailed ""))), pushedRefs := none }
    | some st1 =>
      match note with
      | none => pushPhase c st1 o
      | some payload =>
        match addNote st1 st1.head payload with
        | (st2, none) => pushPhase c st2 o
        | (_, some e) => { state := st1, result := some e, pushedRefs := none }

/-- GetNote for a revision: run `git notes show`; report no note as a
successful absent result, and decode the stored blob otherwise. -/
def Checkout.GetNote (_c : Checkout) (rev : Nat) (st : WorkState) :
    Except GitError (Option NotePayload) :=
  match notesGet st.notes rev with
  | none => Except.ok none
  | some blob =>
    match jsonUnmarshal blob with
    | some p => Except.ok (some p)
    | none => Except.error (GitError.cmdFailed "json decode")

/-! Concrete sample inputs used to evaluate the model on closed instances. -/

/-- Outcomes where every external invocation of `step` succeeds. -/
def okOutcomes : GitOutcomes :=
  { mirrorClone := none, fetchAfterClone := none, checkPush := none }

/-- A remote with a non-empty URL, syncing `master`, in git-tag state mode. -/
def sampleRemote : Remote :=
  { URL := "ssh://git@example.com/repo.git", Branch := "master", StateMode := GitTagStateMode }

/-- A freshly constructed mirror of `sampleRemote` with no options. -/
def sampleRepoNew : Repo :=
  NewRepo sampleRemote "/tmp/flux-gitclone1" []

/-- A mirror in native state mode, not read-only, advanced to the cloned
status. -/
def sampleClonedNative : Repo :=
  { NewRepo { URL := "ssh://git@example.com/repo.git", Branch := "master", StateMode := NativeStateMode }
      "/tmp/flux-gitclone2" [] with
    status := GitRepoStatus.RepoCloned }

/-- A tag-backed provider over a mirror directory with tag `flux-sync`. -/
def sampleTagProvider : GitTagSyncProvider :=
  { workingDir := "/tmp/flux-gitclone1"
    syncTag := "flux-sync"
    upstreamURL := "ssh://git@example.com/repo.git"
    signingKey := ""
    userName := "Weave Flux"
    userEmail := "support@weave.works" }

/-- Tag state where the sync marker is recorded at revision `aaa` both
locally and upstream. -/
def sampleTagStore : TagStore :=
  { localTags := [("flux-sync", "aaa")], remoteTags := [("flux-sync", "aaa")] }

/-- A marker move to revision `bbb` with no explicit signing key. -/
def sampleMarkerAction : SyncMarkerAction :=
  { SigningKey := "", Revision := "bbb", Message := "Sync pointer" }

/-- Outcome where the local tag move succeeds and the force-push fails. -/
def pushFailOutcome : TagPushOutcome :=
  { tagMove := none, tagPush := some (GitError.cmdFailed "connection refused") }

/-- A working-clone configuration syncing `master` with notes ref `flux`. -/
def sampleConfig : Config :=
  { Branch := "master"
    Paths := []
    ReadOnly := false
    SyncMarkerName := "flux-sync"
    NotesRef := "flux"
    UserName := "Weave Flux"
    UserEmail := "support@weave.works"
    SigningKey := ""
    SetAuthor := false
    SkipMessage := " [ci skip]" }

/-- A checkout of `sampleRemote` with the resolved notes ref. -/
def sampleCheckout : Checkout :=
  { dir := "/tmp/flux-working1"
    config := sampleConfig
    upstream := sampleRemote
    realNotesRef := "refs/notes/flux" }

/-- A working-clone state with local changes, at head revision 5, with no
notes and no notes ref yet. -/
def sampleWorkChanged : WorkState :=
  { hasChanges := true, head := 5, commits := [], notes := [], notesRefExists := false }

/-- A working-clone state whose diff over the configured paths is empty. -/
def sampleWorkClean : WorkState :=
  { hasChanges := false, head := 5, commits := [], notes := [], notesRefExists := false }

/-- Outcomes where commit and push succeed and `refExists` reports no
failure. -/
def okCmds : CmdOutcomes :=
  { commitCmd := none, pushCmd := none, refExistsErr := none }

/-- A sample note payload. -/
def samplePayload : NotePayload :=
  { Kind := "automated", Body := "release r1" }

/-- A sample commit request. -/
def sampleCommit : CommitAction :=
  { Author := "", Message := "test commit", SigningKey := "" }

/-- Decidable equality of provider results. -/
instance : DecidableEq (Except GitError String) := fun a b =>
  match a, b with
  | .ok x, .ok y =>
    if h : x = y then .isTrue (congrArg Except.ok h)
    else .isFalse (fun hh => h (Except.ok.inj hh))
  | .ok _, .error _ => .isFalse (fun hh => Except.noConfusion hh)
  | .error _, .ok _ => .isFalse (fun hh => Except.noConfusion hh)
  | .error x, .error y =>
    if h : x = y then .isTrue (congrArg Except.error h)
    else .isFalse (fun hh => h (Except.error.inj hh))

/-! Helper lemmas. -/

/-- Applying constructor options never changes the status field. -/
theorem applyOpts_status (opts : List RepoOption) (r : Repo) :
    (opts.foldl (fun r o => o.apply r) r).status = r.status := by
  induction opts generalizing r with
  | nil => rfl
  | cons o t ih =>
    rw [List.foldl_cons, ih]
    cases o <;> rfl

/-- Applying constructor options never changes the notify channel. -/
theorem applyOpts_notify (opts : List RepoOption) (r : Repo) :
    (opts.foldl (fun r o => o.apply r) r).notify = r.notify := by
  induction opts generalizing r with
  | nil => rfl
  | cons o t ih =>
    rw [List.foldl_cons, ih]
    cases o <;> rfl

/-- Notify preserves the capacity of the notify channel. -/
theorem Notify_capacity (r : Repo) : r.Notify.notify.capacity = r.notify.capacity := by
  simp only [Repo.Notify, Chan.trySend]
  split <;> rfl

/-- Iterating Notify preserves the capacity of the notify channel. -/
theorem notify_iter_capacity (r : Repo) (n : Nat) :
    ((Repo.Notify)^[n] r).notify.capacity = r.notify.capacity := by
  induction n with
  | zero => rfl
  | succ k ih => rw [Function.iterate_succ_apply', Notify_capacity, ih]

/-- Iterating Notify on a capacity-one channel with nothing pending
leaves `min n 1` notifications pending. -/
theorem notify_iter (r : Repo) (hc : r.notify.capacity = 1)
    (hp : r.notify.pending = 0) (n : Nat) :
    ((Repo.Notify)^[n] r).notify.pending = min n 1 := by
  induction n with
  | zero => simpa using hp
  | succ k ih =>
    have hcap : ((Repo.Notify)^[k] r).notify.capacity = 1 := by
      rw [notify_iter_capacity, hc]
    rw [Function.iterate_succ_apply']
    simp only [Repo.Notify, Chan.trySend, hcap]
    split
    · simp only []
      omega
    · omega

/-- Looking up the key just set in a tag association list gives the new
revision. -/
theorem assocGet_assocSet (l : List (String × String)) (k v : String) :
    assocGet (assocSet l k v) k = some v := by
  induction l with
  | nil => simp [assocSet, assocGet]
  | cons h t ih =>
    obtain ⟨k1, v1⟩ := h
    by_cases hk : k1 = k
    · simp [assocSet, hk, assocGet]
    · simp [assocSet, hk, assocGet, ih]

/-- An exact literal at the front of the input is consumed. -/
theorem dropLit_append (l s : List Char) : dropLit l (l ++ s) = some s := by
  induction l with
  | nil => rfl
  | cons c t ih => simp [dropLit, ih]

/-- Reading the two-digit hex of a value below 16 gives the value back. -/
theorem hexVal_hexDigit : ∀ n < 16, hexVal (hexDigit n) = some n := by decide

/-- Parsing a closing quote ends the string body. -/
theorem parseStrBody_dq (t : List Char) : parseStrBody (dq :: t) = some ([], t) := by
  rw [parseStrBody.eq_def]
  simp

/-- Parsing an unescaped ordinary character prepends it. -/
theorem parseStrBody_plain (c : Char) (h1 : c ≠ dq) (h2 : c ≠ bsl) (t : List Char) :
    parseStrBody (c :: t) = (parseStrBody t).map (fun p => (c :: p.1, p.2)) := by
  rw [parseStrBody.eq_def]
  simp [h1, h2]

/-- Parsing a single-character escape prepends the resolved character. -/
theorem parseStrBody_esc (e ch : Char) (he : e ≠ 'u') (hu : unqEsc e = some ch)
    (t : List Char) :
    parseStrBody (bsl :: e :: t) = (parseStrBody t).map (fun p => (ch :: p.1, p.2)) := by
  rw [parseStrBody.eq_def]
  simp +decide [he, hu]

/-- Parsing a four-digit hex escape prepends the decoded character. -/
theorem parseStrBody_u (h1 h2 h3 h4 : Char) (a b c3 d : Nat)
    (ha : hexVal h1 = some a) (hb : hexVal h2 = some b)
    (hc : hexVal h3 = some c3) (hd : hexVal h4 = some d) (t : List Char) :
    parseStrBody (bsl :: 'u' :: h1 :: h2 :: h3 :: h4 :: t) =
      (parseStrBody t).map
        (fun p => (Char.ofNat (((a * 16 + b) * 16 + c3) * 16 + d) :: p.1, p.2)) := by
  rw [parseStrBody.eq_def]
  simp +decide [ha, hb, hc, hd]

/-- Parsing one escaped character prepends that character. -/
theorem parse_escChar (c : Char) (t : List Char) :
    parseStrBody (escChar c ++ t) = (parseStrBody t).map (fun p => (c :: p.1, p.2)) := by
  by_cases h1 : c = dq
  · subst h1
    rw [show escChar dq = [bsl, dq] by simp [escChar], List.cons_append, List.cons_append,
      List.nil_append, parseStrBody_esc dq dq (by decide) (by decide)]
  by_cases h2 : c = bsl
  · subst h2
    rw [show escChar bsl = [bsl, bsl] by simp +decide [escChar], List.cons_append,
      List.cons_append, List.nil_append, parseStrBody_esc bsl bsl (by decide) (by decide)]
  by_cases h3 : c = '\n'
  · subst h3
    rw [show escChar '\n' = [bsl, 'n'] by simp +decide [escChar], List.cons_append,
      List.cons_append, List.nil_append, parseStrBody_esc 'n' '\n' (by decide) (by decide)]
  by_cases h4 : c = '\r'
  · subst h4
    rw [show escChar '\r' = [bsl, 'r'] by simp +decide [escChar], List.cons_append,
      List.cons_append, List.nil_append, parseStrBody_esc 'r' '\r' (by decide) (by decide)]
  by_cases h5 : c = '\t'
  · subst h5
    rw [show escChar '\t' = [bsl, 't'] by simp +decide [escChar], List.cons_append,
      List.cons_append, List.nil_append, parseStrBody_esc 't' '\t' (by decide) (by decide)]
  by_cases h6 : c.toNat < 32
  · have hesc : escChar c =
        [bsl, 'u', '0', '0', hexDigit (c.toNat / 16), hexDigit (c.toNat % 16)] := by
      simp [escChar, h1, h2, h3, h4, h5, h6]
    have hd1 := hexVal_hexDigit (c.toNat / 16) (by omega)
    have hd2 := hexVal_hexDigit (c.toNat % 16) (by omega)
    rw [hesc]
    simp only [List.cons_append, List.nil_append]
    rw [parseStrBody_u '0' '0' (hexDigit (c.toNat / 16)) (hexDigit (c.toNat % 16))
      0 0 (c.toNat / 16) (c.toNat % 16) (by decide) (by decide) hd1 hd2]
    have hval : ((0 * 16 + 0) * 16 + c.toNat / 16) * 16 + c.toNat % 16 = c.toNat := by omega
    rw [hval, Char.ofNat_toNat]
  by_cases h7 : c = '<'
  · subst h7
    have hesc : escChar '<' = [bsl, 'u', '0', '0', '3', 'c'] := by
      simp +decide [escChar]
    rw [hesc]
    simp only [List.cons_append, List.nil_append]
    rw [parseStrBody_u '0' '0' '3' 'c' 0 0 3 12 (by decide) (by decide) (by decide) (by decide)]
  by_cases h8 : c = '>'
  · subst h8
    have hesc : escChar '>' = [bsl, 'u', '0', '0', '3', 'e'] := by
      simp +decide [escChar]
    rw [hesc]
    simp only [List.cons_append, List.nil_append]
    rw [parseStrBody_u '0' '0' '3' 'e' 0 0 3 14 (by decide) (by decide) (by decide) (by decide)]
  by_cases h9 : c = '&'
  · subst h9
    have hesc : escChar '&' = [bsl, 'u', '0', '0', '2', '6'] := by
      simp +decide [escChar]
    rw [hesc]
    simp only [List.cons_append, List.nil_append]
    rw [parseStrBody_u '0' '0' '2' '6' 0 0 2 6 (by decide) (by decide) (by decide) (by decide)]
  by_cases h10 : c.toNat = 8232
  · have hesc : escChar c = [bsl, 'u', '2', '0', '2', '8'] := by
      simp [escChar, h1, h2, h3, h4, h5, h6, h7, h8, h9, h10]
    rw [hesc]
    simp only [List.cons_append, List.nil_append]
    rw [parseStrBody_u '2' '0' '2' '8' 2 0 2 8 (by decide) (by decide) (by decide) (by decide)]
    norm_num
    rw [show (8232 : Nat) = c.toNat from h10.symm, Char.ofNat_toNat]
  by_cases h11 : c.toNat = 8233
  · have hesc : escChar c = [bsl, 'u', '2', '0', '2', '9'] := by
      simp [escChar, h1, h2, h3, h4, h5, h6, h7, h8, h9, h10, h11]
    rw [hesc]
    simp only [List.cons_append, List.nil_append]
    rw [parseStrBody_u '2' '0' '2' '9' 2 0 2 9 (by decide) (by decide) (by decide) (by decide)]
    norm_num
    rw [show (8233 : Nat) = c.toNat from h11.symm, Char.ofNat_toNat]
  · have hesc : escChar c = [c] := by
      simp [escChar, h1, h2, h3, h4, h5, h6, h7, h8, h9, h10, h11]
    rw [hesc, List.cons_append, List.nil_append, parseStrBody_plain c h1 h2]

/-- Parsing an escaped string body followed by a closing quote recovers
the original characters and the rest of the input. -/
theorem parse_escape (s t : List Char) :
    parseStrBody (escape s ++ dq :: t) = some (s, t) := by
  induction s with
  | nil => rw [show escape [] = [] from rfl, List.nil_append, parseStrBody_dq]
  | cons c s2 ih =>
    rw [show escape (c :: s2) = escChar c ++ escape s2 from rfl, List.append_assoc,
      parse_escChar, ih]
    rfl

/-- Rebuilding a string from its character data gives the string back. -/
theorem string_mk_data (s : String) : String.mk s.data = s := by
  cases s; rfl

/-- Decoding a marshalled note payload recovers the payload. -/
theorem json_roundtrip (p : NotePayload) : jsonUnmarshal (jsonMarshal p) = some p := by
  rcases p with ⟨k, b⟩
  simp only [jsonMarshal, jsonUnmarshal]
  rw [show ([lbrace, dq] ++ "Kind".data ++ [dq, ':', dq] ++ escape k.data ++ [dq, ',', dq] ++
      "Body".data ++ [dq, ':', dq] ++ escape b.data ++ [dq, rbrace]) =
      (([lbrace, dq] ++ "Kind".data ++ [dq, ':', dq]) ++ (escape k.data ++ dq ::
      (([',', dq] ++ "Body".data ++ [dq, ':', dq]) ++ (escape b.data ++ dq :: ([rbrace] ++ []))))) by
    simp]
  rw [dropLit_append]
  simp only [Option.bind_eq_bind, Option.some_bind]
  rw [parse_escape]
  simp only [Option.some_bind]
  rw [dropLit_append]
  simp only [Option.some_bind]
  rw [parse_escape]
  simp only [Option.some_bind]
  rw [dropLit_append]
  simp [string_mk_data]

/-- The push phase leaves the local state unchanged, and any refs it
hands to `git push` are the configured branch plus the notes ref exactly
when the notes ref exists locally. -/
theorem pushPhase_spec (c : Checkout) (st : WorkState) (o : CmdOutcomes) :
    (pushPhase c st o).state = st ∧
    (∀ refs, (pushPhase c st o).pushedRefs = some refs →
      refs = [c.config.Branch] ++ (if st.notesRefExists then [c.realNotesRef] else [])) := by
  by_cases hn : st.notesRefExists
  · simp only [pushPhase, refExists, hn, if_true]
    cases o.pushCmd <;> simp
  · simp only [pushPhase, refExists, hn, if_false, Bool.false_eq_true]
    cases hre : o.refExistsErr with
    | some e => simp
    | none => cases o.pushCmd <;> simp

/-- Either `CommitAndPush` returns before the push step (no refs handed
to `git push`), or its entire result is that of the push phase on the
state the earlier steps produced. -/
theorem commitAndPush_cases (c : Checkout) (a : CommitAction)
    (note : Option NotePayload) (st : WorkState) (o : CmdOutcomes) :
    (c.CommitAndPush a note st o).pushedRefs = none ∨
    ∃ s, c.CommitAndPush a note st o = pushPhase c s o := by
  by_cases hch : check st = false
  · left
    simp [Checkout.CommitAndPush, hch]
  · cases hcc : o.commitCmd with
    | some e =>
      left
      simp [Checkout.CommitAndPush, hch, commitStep, hcc]
    | none =>
      cases note with
      | none =>
        right
        simp only [Checkout.CommitAndPush, if_neg hch, commitStep, hcc]
        exact ⟨_, rfl⟩
      | some p =>
        cases hng : notesGet st.notes (st.head + 1) with
        | some blob =>
          left
          simp [Checkout.CommitAndPush, hch, commitStep, hcc, addNote, hng]
        | none =>
          right
          simp only [Checkout.CommitAndPush, if_neg hch, commitStep, hcc, addNote, hng]
          exact ⟨_, rfl⟩

/-! Claim theorems. -/

/-- C1 (counterexample): the claim that a tag-variant `UpdateMarker`
whose push fails leaves the marker revision observed by `GetRevision`
unchanged is false. With the marker recorded at revision `aaa`, a marker
move to `bbb` whose force-push fails returns an error, yet `GetRevision`
on the same provider afterwards observes `bbb`: the local tag was already
force-moved before the push. -/
theorem updateMarker_pushFail_cex :
    ((sampleTagProvider.UpdateMarker sampleMarkerAction sampleTagStore pushFailOutcome).2).isSome = true ∧
    sampleTagProvider.GetRevision sampleTagStore = Except.ok "aaa" ∧
    sampleTagProvider.GetRevision
      (sampleTagProvider.UpdateMarker sampleMarkerAction sampleTagStore pushFailOutcome).1 =
      Except.ok "bbb" ∧
    sampleTagProvider.GetRevision
      (sampleTagProvider.UpdateMarker sampleMarkerAction sampleTagStore pushFailOutcome).1 ≠
      sampleTagProvider.GetRevision sampleTagStore := by
  decide

/-- C1 (amended): when the tag move succeeds but the push fails,
`UpdateMarker` reports the failure and the upstream (remote) marker is
unchanged; however the local tag — and therefore `GetRevision`, which
reads it — already shows the new revision. -/
theorem updateMarker_pushFail_remote_unchanged (p : GitTagSyncProvider)
    (a : SyncMarkerAction) (st : TagStore) (o : TagPushOutcome)
    (ht : o.tagMove = none) (hp : o.tagPush.isSome = true) :
    ((p.UpdateMarker a st o).2).isSome = true ∧
    (p.UpdateMarker a st o).1.remoteTags = st.remoteTags ∧
    p.GetRevision (p.UpdateMarker a st o).1 = Except.ok a.Revision := by
  rcases o with ⟨tm, tp⟩
  cases tm with
  | some e => simp at ht
  | none =>
    cases tp with
    | none => simp at hp
    | some e =>
      simp [GitTagSyncProvider.UpdateMarker, GitTagSyncProvider.GetRevision,
        assocGet_assocSet]

/-- C1 (witness for the amended theorem). -/
theorem updateMarker_pushFail_remote_unchanged_wit :
    ((sampleTagProvider.UpdateMarker sampleMarkerAction sampleTagStore pushFailOutcome).2).isSome = true ∧
    (sampleTagProvider.UpdateMarker sampleMarkerAction sampleTagStore pushFailOutcome).1.remoteTags =
      sampleTagStore.remoteTags ∧
    sampleTagProvider.GetRevision
      (sampleTagProvider.UpdateMarker sampleMarkerAction sampleTagStore pushFailOutcome).1 =
      Except.ok sampleMarkerAction.Revision :=
  updateMarker_pushFail_remote_unchanged sampleTagProvider sampleMarkerAction
    sampleTagStore pushFailOutcome rfl rfl

/-- C2 (counterexample): the claim that the resource-backed `GetRevision`
with no prior writes returns a distinguished not-found result is false:
it returns a plain success carrying the zero-value (empty) revision,
indistinguishable from a marker explicitly updated to the empty
revision. -/
theorem nativeGetRevision_cex :
    NativeSyncProvider.GetRevision { revision := "" } initialNativeShim = Except.ok "" ∧
    NativeSyncProvider.GetRevision { revision := "" }
      ((NativeSyncProvider.UpdateMarker { revision := "" }
        { SigningKey := "", Revision := "", Message := "" } initialNativeShim).1) =
      Except.ok "" := by
  decide

/-- C2 (amended): on a resource-backed provider with no prior writes,
`GetRevision` returns success with the empty-string revision — no error,
but also no distinguished not-found variant. -/
theorem nativeGetRevision_neverSet (p : NativeSyncProvider) :
    p.GetRevision initialNativeShim = Except.ok "" :=
  rfl

/-- C3 (counterexample): the claim that the `Cloned` step probes write
access if and only if the active marker mode requires repository write
access is false: a mirror in native (resource) marker mode that is not
read-only still runs the probe. -/
theorem cloned_probe_policy_cex :
    (sampleClonedNative.step okOutcomes).probed = true ∧
    sampleClonedNative.stateMode ≠ GitTagStateMode ∧
    sampleClonedNative.readonly = false ∧
    sampleClonedNative.status = GitRepoStatus.RepoCloned := by
  decide

/-- C3 (amended): from the `Cloned` status, the step performs the
write-access probe if and only if the repo is not read-only or the marker
mode is the git-tag mode; when the probe is not performed, or when it
succeeds, the step moves the status to `Ready`. -/
theorem cloned_step_probe_iff (r : Repo) (g : GitOutcomes)
    (h : r.status = GitRepoStatus.RepoCloned) :
    ((r.step g).probed = true ↔ (r.readonly = false ∨ r.stateMode = GitTagStateMode)) ∧
    ((¬(r.readonly = false ∨ r.stateMode = GitTagStateMode)) ∨ g.checkPush = none →
      (r.step g).repo.status = GitRepoStatus.RepoReady) := by
  by_cases hc : r.readonly = false ∨ r.stateMode = GitTagStateMode
  · cases hcp : g.checkPush <;>
      simp [Repo.step, h, hc, hcp, Repo.setReady, Repo.refreshed, Repo.setUnready]
  · simp [Repo.step, h, hc, Repo.setReady, Repo.refreshed]

/-- C3 (witness for the amended theorem). -/
theorem cloned_step_probe_iff_wit :
    (((sampleClonedNative.step okOutcomes).probed = true ↔
      (sampleClonedNative.readonly = false ∨
        sampleClonedNative.stateMode = GitTagStateMode)) ∧
    ((¬(sampleClonedNative.readonly = false ∨
        sampleClonedNative.stateMode = GitTagStateMode)) ∨ okOutcomes.checkPush = none →
      (sampleClonedNative.step okOutcomes).repo.status = GitRepoStatus.RepoReady)) :=
  cloned_step_probe_iff sampleClonedNative okOutcomes rfl

/-- C4: along any transition of the status — a `step` with any outcomes
of its external invocations, or the long-running loop's demotion on
refresh failure — the status never decreases along the order New, Cloned,
Ready except by falling back exactly to `New`, and `RepoNoConfig` is
never entered by a transition (it holds only from construction). -/
theorem status_step_monotone (s s2 : GitRepoStatus) (h : StatusStep s s2) :
    (s.rank ≤ s2.rank ∨ s2 = GitRepoStatus.RepoNew) ∧
    (s2 = GitRepoStatus.RepoNoConfig → s = GitRepoStatus.RepoNoConfig) := by
  cases h with
  | ofStep r g =>
    cases hs : r.status <;>
      simp only [Repo.step, hs] <;>
      [skip;
        (cases g.mirrorClone <;> [cases g.fetchAfterClone; skip]);
        (by_cases hc : r.readonly = false ∨ r.stateMode = GitTagStateMode <;>
          [cases g.checkPush; skip]);
        skip] <;>
      simp_all [Repo.setUnready, Repo.setReady, Repo.refreshed, GitRepoStatus.rank]
  | demote r e hr =>
    simp [hr, Repo.setUnready, GitRepoStatus.rank]

/-- C4 (witness): a concrete transition, the successful clone step of a
fresh mirror. -/
theorem status_step_monotone_wit :
    ((sampleRepoNew.status.rank ≤ ((sampleRepoNew.step okOutcomes).repo.status).rank ∨
      (sampleRepoNew.step okOutcomes).repo.status = GitRepoStatus.RepoNew) ∧
    ((sampleRepoNew.step okOutcomes).repo.status = GitRepoStatus.RepoNoConfig →
      sampleRepoNew.status = GitRepoStatus.RepoNoConfig)) :=
  status_step_monotone _ _ (StatusStep.ofStep sampleRepoNew okOutcomes)

/-- C5: a `CommitAndPush` on a checkout whose diff over the configured
sub-paths is empty fails with the no-changes error, commits nothing,
pushes nothing, and leaves the local state untouched. -/
theorem commitAndPush_noChanges (c : Checkout) (a : CommitAction)
    (note : Option NotePayload) (st : WorkState) (o : CmdOutcomes)
    (h : st.hasChanges = false) :
    c.CommitAndPush a note st o =
      { state := st, result := some GitError.noChanges, pushedRefs := none } := by
  simp [Checkout.CommitAndPush, check, h]

/-- C5 (witness). -/
theorem commitAndPush_noChanges_wit :
    sampleCheckout.CommitAndPush sampleCommit none sampleWorkClean okCmds =
      { state := sampleWorkClean, result := some GitError.noChanges, pushedRefs := none } :=
  commitAndPush_noChanges sampleCheckout sampleCommit none sampleWorkClean okCmds rfl

/-- C6: after a successful `CommitAndPush` carrying a note payload,
`GetNote` for the new head revision returns exactly the original payload:
the marshal-store-show-unmarshal round trip over the notes ref is the
identity. -/
theorem commitAndPush_note_roundtrip (c : Checkout) (a : CommitAction)
    (p : NotePayload) (st : WorkState) (o : CmdOutcomes)
    (h : (c.CommitAndPush a (some p) st o).result = none) :
    c.GetNote (c.CommitAndPush a (some p) st o).state.head
      (c.CommitAndPush a (some p) st o).state = Except.ok (some p) := by
  by_cases hch : check st = false
  · simp [Checkout.CommitAndPush, hch] at h
  · cases hcc : o.commitCmd with
    | some e => simp [Checkout.CommitAndPush, hch, commitStep, hcc] at h
    | none =>
      cases hng : notesGet st.notes (st.head + 1) with
      | some blob =>
        simp [Checkout.CommitAndPush, hch, commitStep, hcc, addNote, hng] at h
      | none =>
        cases hpc : o.pushCmd with
        | some e =>
          simp [Checkout.CommitAndPush, hch, commitStep, hcc, addNote, hng,
            pushPhase, refExists, hpc] at h
        | none =>
          simp [Checkout.CommitAndPush, hch, commitStep, hcc, addNote, hng,
            pushPhase, refExists, hpc, Checkout.GetNote, notesGet, json_roundtrip]

/-- C6 (witness). -/
theorem commitAndPush_note_roundtrip_wit :
    sampleCheckout.GetNote
      (sampleCheckout.CommitAndPush sampleCommit (some samplePayload) sampleWorkChanged okCmds).state.head
      (sampleCheckout.CommitAndPush sampleCommit (some samplePayload) sampleWorkChanged okCmds).state =
      Except.ok (some samplePayload) :=
  commitAndPush_note_roundtrip sampleCheckout sampleCommit samplePayload
    sampleWorkChanged okCmds (by decide)

/-- C7: starting from a freshly constructed mirror, any number of
`Notify` calls made before a refresh consumes them leaves exactly
`min n 1` notifications pending: at most one refresh request is ever
pending, a call never blocks (the send is the non-blocking single-slot
send), and a call made while one is pending queues nothing further. -/
theorem notify_coalesce (origin : Remote) (dir : String) (opts : List RepoOption)
    (n : Nat) :
    ((Repo.Notify)^[n] (NewRepo origin dir opts)).notify.pending = min n 1 := by
  have h1 : (NewRepo origin dir opts).notify = { capacity := 1, pending := 0 } := by
    simp [NewRepo, applyOpts_notify]
  exact notify_iter _ (by rw [h1]) (by rw [h1]) n

/-- C8: a mirror constructed with an empty remote URL has the
`RepoNoConfig` status whatever options are supplied, and every invocation
of its transition step reports no progress. -/
theorem newRepo_emptyURL_noConfig (branch mode dir : String)
    (opts : List RepoOption) (g : GitOutcomes) :
    (NewRepo { URL := "", Branch := branch, StateMode := mode } dir opts).status =
      GitRepoStatus.RepoNoConfig ∧
    ((NewRepo { URL := "", Branch := branch, StateMode := mode } dir opts).step g).progress =
      false := by
  have h1 : (NewRepo { URL := "", Branch := branch, StateMode := mode } dir opts).status =
      GitRepoStatus.RepoNoConfig := by
    simp [NewRepo, applyOpts_status]
  exact ⟨h1, by simp [Repo.step, h1]⟩

/-- C9: whenever `CommitAndPush` reaches the push step, the refs handed
to `git push` are exactly the configured branch, plus the resolved notes
ref if and only if that notes ref exists locally at push time (the local
state is unchanged by the push itself, so the final state carries the
push-time existence). -/
theorem commitAndPush_pushed_refs (c : Checkout) (a : CommitAction)
    (note : Option NotePayload) (st : WorkState) (o : CmdOutcomes)
    (refs : List String)
    (h : (c.CommitAndPush a note st o).pushedRefs = some refs) :
    refs = [c.config.Branch] ++
      (if (c.CommitAndPush a note st o).state.notesRefExists then [c.realNotesRef]
        else []) := by
  rcases commitAndPush_cases c a note st o with hnone | ⟨s, heq⟩
  · rw [hnone] at h
    exact absurd h (by simp)
  · rw [heq] at h ⊢
    obtain ⟨hstate, hrefs⟩ := pushPhase_spec c s o
    rw [hstate]
    exact hrefs refs h

/-- C9 (witness). -/
theorem commitAndPush_pushed_refs_wit :
    ((sampleCheckout.CommitAndPush sampleCommit (some samplePayload) sampleWorkChanged okCmds).pushedRefs =
      some ["master", "refs/notes/flux"]) ∧
    (["master", "refs/notes/flux"] = [sampleCheckout.config.Branch] ++
      (if (sampleCheckout.CommitAndPush sampleCommit (some samplePayload) sampleWorkChanged okCmds).state.notesRefExists
        then [sampleCheckout.realNotesRef] else [])) :=
  ⟨by decide,
    commitAndPush_pushed_refs sampleCheckout sampleCommit (some samplePayload)
      sampleWorkChanged okCmds ["master", "refs/notes/flux"] (by decide)⟩

/-- C10: Clean always sets the status to `RepoNew` and the directory to
the empty string — from any status, `RepoNoConfig` and `RepoReady`
included — and leaves the recorded last error unchanged. -/
theorem clean_resets (r : Repo) :
    r.Clean.status = GitRepoStatus.RepoNew ∧ r.Clean.dir = "" ∧ r.Clean.err = r.err :=
  ⟨rfl, rfl, rfl⟩

end Flux
